import Mathlib

/-!
Verification of the default address-space handlers (MMIO, port I/O, PCI
configuration) of the uACPI repository, as a shallow embedding of the C
source. Pure data is embedded directly; kernel-platform primitives and
namespace evaluation, which the core only calls through an interface, are
passed in as explicit environments. Machine integers are Nat with explicit
reduction modulo powers of two where the C performs truncating conversions
or wrapping arithmetic.
-/

/-- Status codes of the library (uacpi_status). The named constructors are
the statuses this translation unit produces or tests for; every other
platform-produced status is carried by the numeric constructor. -/
inductive UacpiStatus where
  | ok
  | outOfMemory
  | mappingFailed
  | notFound
  | invalidArgument
  | otherError (code : Nat)
deriving DecidableEq

/-- Modelled from the spec: the region op code (uacpi_region_op, declared in
a header outside src). Four known codes Attach, Detach, Read, Write; any
other integer value is carried by the last constructor. -/
inductive RegionOp where
  | attach
  | detach
  | read
  | write
  | otherOp (code : Nat)
deriving DecidableEq

/-- Modelled from the spec: the operation-region descriptor fields the
handlers consult (offset is the physical base or port base, length is the
extent of the region). -/
structure OpRegion where
  offset : Nat
  length : Nat
deriving DecidableEq

/-- Modelled from the spec: the RwInput (uacpi_region_rw_data, declared in a
header outside src). It carries the access location, the byte width and the
value slot. The spec data-model table lists both an absolute address and an
offset for this record while section 4.3, describing the source line that
reads data offset minus base, calls the subtrahend the address: the two
names denote one stored datum (in the C declaration they are members of one
anonymous union), so the model stores it once, under the name address. -/
structure RwInput where
  address : Nat
  byte_width : Nat
  value : Nat
deriving DecidableEq

/-- Modelled from the spec: the second name of the single location datum of
the rw input (the offset union member, aliasing address). -/
def RwInput.offset (d : RwInput) : Nat := d.address

/-- Wrapping subtraction of 64-bit unsigned integers, as performed by the C
expressions of the form a - b at type uacpi_u64 or uacpi_size. -/
def sub64 (a b : Nat) : Nat :=
  (2 ^ 64 + a % 2 ^ 64 - b % 2 ^ 64) % 2 ^ 64

/-- Byte-addressed memory backing an MMIO mapping: each address holds one
byte, read reduced modulo 256. -/
def Mem : Type := Nat → Nat

/-- A concrete all-zero memory, used to instantiate theorems. -/
def zeroMem : Mem := fun _ => 0

def readU8 (m : Mem) (p : Nat) : Nat := m p % 256

def writeU8 (m : Mem) (p v : Nat) : Mem :=
  fun x => if x = p then v % 256 else m x

/-- Little-endian 16-bit load, one volatile u16 access in the source. -/
def readU16 (m : Mem) (p : Nat) : Nat :=
  readU8 m p + 256 * readU8 m (p + 1)

/-- Little-endian 16-bit store, one volatile u16 access in the source; the
stored value is the C truncating conversion of v to u16. -/
def writeU16 (m : Mem) (p v : Nat) : Mem :=
  writeU8 (writeU8 m p v) (p + 1) (v / 256)

def readU32 (m : Mem) (p : Nat) : Nat :=
  readU16 m p + 65536 * readU16 m (p + 2)

def writeU32 (m : Mem) (p v : Nat) : Mem :=
  writeU16 (writeU16 m p v) (p + 2) (v / 65536)

def readU64 (m : Mem) (p : Nat) : Nat :=
  readU32 m p + 4294967296 * readU32 m (p + 4)

def writeU64 (m : Mem) (p v : Nat) : Mem :=
  writeU32 (writeU32 m p v) (p + 4) (v / 4294967296)

/-- Translation of memory_read: switch on the byte width, perform a single
load of exactly that width at ptr into the out slot, return ok; any other
width returns invalid-argument and leaves the out slot (second component)
unchanged. -/
def memory_read (m : Mem) (ptr width out : Nat) : UacpiStatus × Nat :=
  match width with
  | 1 => (.ok, readU8 m ptr)
  | 2 => (.ok, readU16 m ptr)
  | 4 => (.ok, readU32 m ptr)
  | 8 => (.ok, readU64 m ptr)
  | _ => (.invalidArgument, out)

/-- Translation of memory_write: switch on the byte width, perform a single
store of exactly that width of the (truncated) input at ptr, return ok; any
other width returns invalid-argument and leaves memory unchanged. -/
def memory_write (m : Mem) (ptr width vin : Nat) : UacpiStatus × Mem :=
  match width with
  | 1 => (.ok, writeU8 m ptr vin)
  | 2 => (.ok, writeU16 m ptr vin)
  | 4 => (.ok, writeU32 m ptr vin)
  | 8 => (.ok, writeU64 m ptr vin)
  | _ => (.invalidArgument, m)

/-- Per-region context of the MMIO backing (struct memory_region_ctx). -/
structure MemoryRegionCtx where
  phys : Nat
  virt : Nat
  size : Nat
deriving DecidableEq

/-- Per-region context of the port I/O backing (struct io_region_ctx). -/
structure IoRegionCtx where
  base : Nat
  handle : Nat
deriving DecidableEq

/-- Modelled from the spec: the PCI address record (uacpi_pci_address,
declared outside src) with fields segment u16, bus u8, device u8,
function u8; struct pci_region_ctx holds exactly one such record. -/
structure PciAddress where
  segment : Nat
  bus : Nat
  device : Nat
  function : Nat
deriving DecidableEq

/-- Modelled from the spec: one namespace node as seen by this translation
unit. The Option fields carry the outcome of the corresponding namespace
evaluation on this node: some v models a status-ok evaluation producing v,
none models any failing evaluation. isDevice models the test that the node
has an object of type Device attached. -/
structure NodeInfo where
  hid : Option String
  cid : Option (List String)
  isDevice : Bool
  adr : Option Nat
  seg : Option Nat
  bbn : Option Nat
deriving DecidableEq

/-- Translation of is_node_pci_root: a node is a PCI root when its _HID
evaluates ok to a recognized root-bridge id, or, failing that, when any
entry of its _CID list is recognized. The recognizer predicate
(uacpi_is_pci_root_bridge, defined outside src) is passed in. -/
def is_node_pci_root (isBridge : String → Bool) (n : NodeInfo) : Bool :=
  (match n.hid with
   | some id => isBridge id
   | none => false) ||
  (match n.cid with
   | some ids => ids.any isBridge
   | none => false)

/-- Translation of find_pci_root: walk the proper ancestors of the region
node, nearest first, stopping before the namespace root (the C loop runs
while parent is not the root); return the first ancestor recognized as a
PCI root, and fall back to the region node itself when none is. The list
argument holds the proper ancestors strictly below the namespace root. -/
def find_pci_root (isBridge : String → Bool) (node : NodeInfo) :
    List NodeInfo → NodeInfo
  | [] => node
  | p :: rest =>
    if is_node_pci_root isBridge p then p
    else find_pci_root isBridge node rest

/-- Translation of the controlling-device loop of pci_region_attach: from
the region node itself, ascend the full parent chain (namespace root
included, since the C loop runs until the parent pointer is null) and stop
at the first node whose object is of type Device. -/
def findDevice : List NodeInfo → Option NodeInfo
  | [] => none
  | n :: rest => if n.isDevice then some n else findDevice rest

/-- Result of an attach routine: the status returned, the value stored into
the caller out slot of the attach data (none when the out slot was never
written), and whether the allocated context was freed before returning. -/
structure PciAttachResult where
  status : UacpiStatus
  out : Option PciAddress
  ctxFreed : Bool
deriving DecidableEq

/-- Translation of pci_region_attach. The kernel calloc outcome is the
allocOk flag (a calloc context starts all zero); node is the region node,
below lists its proper ancestors strictly below the namespace root, nearest
first, and root is the namespace root node. Each of the _ADR, _SEG, _BBN
evaluations updates its field only when it returns ok; the u64 integer is
truncated by the C assignment into the u8 or u16 context field. -/
def pci_region_attach (isBridge : String → Bool) (allocOk : Bool)
    (node : NodeInfo) (below : List NodeInfo) (root : NodeInfo) :
    PciAttachResult :=
  if allocOk then
    let pciRoot := find_pci_root isBridge node below
    match findDevice (node :: (below ++ [root])) with
    | none => ⟨.notFound, none, true⟩
    | some dev =>
      let fn := match dev.adr with
        | some v => v % 256
        | none => 0
      let dv := match dev.adr with
        | some v => v / 65536 % 256
        | none => 0
      let sg := match pciRoot.seg with
        | some v => v % 65536
        | none => 0
      let bs := match pciRoot.bbn with
        | some v => v % 256
        | none => 0
      ⟨.ok, some ⟨sg, bs, dv, fn⟩, false⟩
  else ⟨.outOfMemory, none, false⟩

/-- Resource-release actions a detach routine performs, in order. -/
inductive Effect where
  | freeCtx
  | unmapVirt (virt size : Nat)
  | unmapPort (handle : Nat)
deriving DecidableEq

/-- Translation of pci_region_detach: free the context, return ok. -/
def pci_region_detach (_ctx : PciAddress) : UacpiStatus × List Effect :=
  (.ok, [.freeCtx])

/-- Platform PCI configuration primitives consumed by the rw path
(uacpi_kernel_pci_read and uacpi_kernel_pci_write), modelled from the spec
as total functions: the read returns the status and the resulting value of
the out slot. -/
structure PciRwEnv where
  pciRead : PciAddress → Nat → Nat → UacpiStatus × Nat
  pciWrite : PciAddress → Nat → Nat → Nat → UacpiStatus

/-- The platform call a PCI rw issues, with its exact arguments. -/
inductive PciEffectCall where
  | pciReadCall (addr : PciAddress) (offset width : Nat)
  | pciWriteCall (addr : PciAddress) (offset width value : Nat)
deriving DecidableEq

/-- Result of a rw routine of the PCI backing: status, the rw data as left
behind (value updated on read), and the platform call that was issued. -/
structure PciRwResult where
  status : UacpiStatus
  data : RwInput
  call : PciEffectCall

/-- Translation of pci_region_do_rw: pass the stored address, the offset
member of the rw data, and the byte width straight to the platform PCI
primitive; a read updates the value slot of the rw data. -/
def pci_region_do_rw (env : PciRwEnv) (op : RegionOp) (ctx : PciAddress)
    (d : RwInput) : PciRwResult :=
  let offset := d.offset
  let width := d.byte_width
  if op = RegionOp.read then
    let r := env.pciRead ctx offset width
    ⟨r.1, { d with value := r.2 }, .pciReadCall ctx offset width⟩
  else
    ⟨env.pciWrite ctx offset width d.value, d,
      .pciWriteCall ctx offset width d.value⟩

/-- Modelled from the spec: the kernel services memory_region_attach
consumes. allocOk is the outcome of the kernel allocation of the context;
mapResult models the platform map of a physical range, returning the
virtual base or none for a null mapping. -/
structure MemEnv where
  allocOk : Bool
  mapResult : Nat → Nat → Option Nat

/-- Result of the MMIO attach routine, in the shape of PciAttachResult. -/
structure MemAttachResult where
  status : UacpiStatus
  out : Option MemoryRegionCtx
  ctxFreed : Bool
deriving DecidableEq

/-- Translation of memory_region_attach: allocate the context (out of
memory on failure), record phys and size from the operation region, map the
whole range; on a null mapping free the context and return mapping-failed
without writing the out slot, otherwise store the context and return ok. -/
def memory_region_attach (env : MemEnv) (reg : OpRegion) : MemAttachResult :=
  if env.allocOk then
    let phys := reg.offset
    let size := reg.length
    match env.mapResult phys size with
    | none => ⟨.mappingFailed, none, true⟩
    | some virt => ⟨.ok, some ⟨phys, virt, size⟩, false⟩
  else ⟨.outOfMemory, none, false⟩

/-- Translation of memory_region_detach: unmap the virtual range of the
context, free the context, return ok. -/
def memory_region_detach (ctx : MemoryRegionCtx) : UacpiStatus × List Effect :=
  (.ok, [.unmapVirt ctx.virt ctx.size, .freeCtx])

/-- Modelled from the spec: the kernel services io_region_attach consumes.
allocOk is the outcome of the kernel allocation of the context; portMap
models the platform io-map of a port range, returning a status and the
opaque handle produced on success. -/
structure IoEnv where
  allocOk : Bool
  portMap : Nat → Nat → UacpiStatus × Nat

/-- Result of the port I/O attach routine. -/
structure IoAttachResult where
  status : UacpiStatus
  out : Option IoRegionCtx
  ctxFreed : Bool
deriving DecidableEq

/-- Translation of io_region_attach: allocate the context (out of memory on
failure), record the base from the operation region, io-map the range; on
an error status free the context and return that status unchanged without
writing the out slot, otherwise store the context and return the ok status
the io-map produced. -/
def io_region_attach (env : IoEnv) (reg : OpRegion) : IoAttachResult :=
  if env.allocOk then
    let base := reg.offset
    let r := env.portMap base reg.length
    if r.1 ≠ UacpiStatus.ok then ⟨r.1, none, true⟩
    else ⟨r.1, some ⟨base, r.2⟩, false⟩
  else ⟨.outOfMemory, none, false⟩

/-- Translation of io_region_detach: io-unmap the port handle, free the
context, return ok. -/
def io_region_detach (ctx : IoRegionCtx) : UacpiStatus × List Effect :=
  (.ok, [.unmapPort ctx.handle, .freeCtx])

/-- Result of a rw routine of the MMIO backing: status, the rw data as left
behind (value updated on read), the memory as left behind (updated on
write), and the pointer at which the access primitive was invoked. -/
structure MemRwResult where
  status : UacpiStatus
  data : RwInput
  mem : Mem
  ptr : Nat

/-- Translation of memory_region_do_rw: compute the access pointer as the
virtual base plus the 64-bit difference of the absolute address of the rw
data and the physical base of the context, then delegate to memory_read for
the read op and memory_write otherwise (only read and write reach this
routine). -/
def memory_region_do_rw (op : RegionOp) (ctx : MemoryRegionCtx)
    (d : RwInput) (m : Mem) : MemRwResult :=
  let ptr := ctx.virt + sub64 d.address ctx.phys
  if op = RegionOp.read then
    let r := memory_read m ptr d.byte_width d.value
    ⟨r.1, { d with value := r.2 }, m, ptr⟩
  else
    let r := memory_write m ptr d.byte_width d.value
    ⟨r.1, d, r.2, ptr⟩

/-- Modelled from the spec: the platform port primitives the port I/O rw
path consumes (uacpi_kernel_io_read and uacpi_kernel_io_write), as total
functions; the read returns the status and the resulting value of the out
slot. -/
structure IoRwEnv where
  portRead : Nat → Nat → Nat → UacpiStatus × Nat
  portWrite : Nat → Nat → Nat → Nat → UacpiStatus

/-- The platform port call a port I/O rw issues, with its exact
arguments: handle, offset, width, and the written value. -/
inductive IoEffectCall where
  | portReadCall (handle offset width : Nat)
  | portWriteCall (handle offset width value : Nat)
deriving DecidableEq

/-- Result of a rw routine of the port I/O backing: status, the rw data as
left behind (value updated on read), and the platform call issued. -/
structure IoRwResult where
  status : UacpiStatus
  data : RwInput
  call : IoEffectCall

/-- Translation of io_region_do_rw: compute the port offset as the 64-bit
difference of the offset member of the rw data (which names the same datum
as the absolute address) and the base of the context, then issue the
platform port read or write with the handle, that offset, the byte width
and the value slot. -/
def io_region_do_rw (env : IoRwEnv) (op : RegionOp) (ctx : IoRegionCtx)
    (d : RwInput) : IoRwResult :=
  let offset := sub64 d.offset ctx.base
  let width := d.byte_width
  if op = RegionOp.read then
    let r := env.portRead ctx.handle offset width
    ⟨r.1, { d with value := r.2 }, .portReadCall ctx.handle offset width⟩
  else
    ⟨env.portWrite ctx.handle offset width d.value, d,
      .portWriteCall ctx.handle offset width d.value⟩

/-- The op-dependent payload handed to the MMIO handler, one constructor
per shape the C code casts the opaque handle to. -/
inductive MemOpData where
  | attachData (env : MemEnv) (reg : OpRegion)
  | detachData (ctx : MemoryRegionCtx)
  | rwData (ctx : MemoryRegionCtx) (d : RwInput) (m : Mem)

/-- Outcome of one MMIO handler invocation. badCast marks the combinations
where the C code would reinterpret a payload of the wrong shape, which the
handler contract never produces. -/
inductive MemOpResult where
  | attached (r : MemAttachResult)
  | detached (st : UacpiStatus) (effects : List Effect)
  | accessed (r : MemRwResult)
  | rejected (st : UacpiStatus)
  | badCast

/-- Translation of handle_memory_region: dispatch on the op code to the
attach, detach, or rw routine; any op other than the four known codes
returns invalid-argument. -/
def handle_memory_region (op : RegionOp) (opData : MemOpData) : MemOpResult :=
  match op with
  | .attach =>
    match opData with
    | .attachData env reg => .attached (memory_region_attach env reg)
    | _ => .badCast
  | .detach =>
    match opData with
    | .detachData ctx =>
      let r := memory_region_detach ctx
      .detached r.1 r.2
    | _ => .badCast
  | .read | .write =>
    match opData with
    | .rwData ctx d m => .accessed (memory_region_do_rw op ctx d m)
    | _ => .badCast
  | .otherOp _ => .rejected .invalidArgument

/-- The op-dependent payload handed to the port I/O handler. -/
inductive IoOpData where
  | attachData (env : IoEnv) (reg : OpRegion)
  | detachData (ctx : IoRegionCtx)
  | rwData (env : IoRwEnv) (ctx : IoRegionCtx) (d : RwInput)

/-- Outcome of one port I/O handler invocation. -/
inductive IoOpResult where
  | attached (r : IoAttachResult)
  | detached (st : UacpiStatus) (effects : List Effect)
  | accessed (r : IoRwResult)
  | rejected (st : UacpiStatus)
  | badCast

/-- Translation of handle_io_region: dispatch on the op code to the attach,
detach, or rw routine; any op other than the four known codes returns
invalid-argument. -/
def handle_io_region (op : RegionOp) (opData : IoOpData) : IoOpResult :=
  match op with
  | .attach =>
    match opData with
    | .attachData env reg => .attached (io_region_attach env reg)
    | _ => .badCast
  | .detach =>
    match opData with
    | .detachData ctx =>
      let r := io_region_detach ctx
      .detached r.1 r.2
    | _ => .badCast
  | .read | .write =>
    match opData with
    | .rwData env ctx d => .accessed (io_region_do_rw env op ctx d)
    | _ => .badCast
  | .otherOp _ => .rejected .invalidArgument

/-- The op-dependent payload handed to the PCI configuration handler; the
attach payload carries the region node, its proper ancestors strictly below
the namespace root (nearest first), the namespace root, the root-bridge
recognizer, and the kernel allocation outcome. -/
inductive PciOpData where
  | attachData (isBridge : String → Bool) (allocOk : Bool) (node : NodeInfo)
      (below : List NodeInfo) (root : NodeInfo)
  | detachData (ctx : PciAddress)
  | rwData (env : PciRwEnv) (ctx : PciAddress) (d : RwInput)

/-- Outcome of one PCI configuration handler invocation. -/
inductive PciOpResult where
  | attached (r : PciAttachResult)
  | detached (st : UacpiStatus) (effects : List Effect)
  | accessed (r : PciRwResult)
  | rejected (st : UacpiStatus)
  | badCast

/-- Translation of handle_pci_region: dispatch on the op code to the
attach, detach, or rw routine; any op other than the four known codes
returns invalid-argument. -/
def handle_pci_region (op : RegionOp) (opData : PciOpData) : PciOpResult :=
  match op with
  | .attach =>
    match opData with
    | .attachData isBridge allocOk node below root =>
      .attached (pci_region_attach isBridge allocOk node below root)
    | _ => .badCast
  | .detach =>
    match opData with
    | .detachData ctx =>
      let r := pci_region_detach ctx
      .detached r.1 r.2
    | _ => .badCast
  | .read | .write =>
    match opData with
    | .rwData env ctx d => .accessed (pci_region_do_rw env op ctx d)
    | _ => .badCast
  | .otherOp _ => .rejected .invalidArgument

/-- A sample root-bridge recognizer used to instantiate theorems; the spec
names PNP0A08 as a recognized PCI root bridge id. -/
def sampleBridgeIds (s : String) : Bool := s = "PNP0A08"

/-- A sample namespace root node with no evaluations succeeding. -/
def sampleRoot : NodeInfo := ⟨none, none, false, none, none, none⟩

/-- A sample region node that is itself a Device and carries an _ADR of
0x001F0003, matching the PCI scenario of the spec. -/
def sampleDevNode : NodeInfo := ⟨none, none, true, some 2031619, none, none⟩

/-- A sample device node with no successful evaluation at all. -/
def sampleBareDevNode : NodeInfo := ⟨none, none, true, none, none, none⟩

/-- A sample ancestor node recognized as a PCI root bridge through its
_HID, carrying a _SEG of 1 and a _BBN of 64. -/
def sampleBridgeNode : NodeInfo :=
  ⟨some "PNP0A08", none, false, none, some 1, some 64⟩

/-- A sample MMIO kernel environment whose allocation succeeds and whose
map returns virtual base 4096 for every request. -/
def sampleMemEnv : MemEnv := ⟨true, fun _ _ => some 4096⟩

/-- A sample MMIO kernel environment whose map fails. -/
def failMapMemEnv : MemEnv := ⟨true, fun _ _ => none⟩

/-- A sample operation region with offset 65536 and length 256. -/
def sampleReg : OpRegion := ⟨65536, 256⟩

/-- A sample port I/O kernel environment whose io-map yields handle 7. -/
def sampleIoEnv : IoEnv := ⟨true, fun _ _ => (.ok, 7)⟩

/-- A sample port I/O kernel environment whose io-map fails with a
platform-specific error code. -/
def failIoEnv : IoEnv := ⟨true, fun _ _ => (.otherError 33, 0)⟩

/-- A sample platform port rw environment accepting every access. -/
def sampleIoRwEnv : IoRwEnv := ⟨fun _ _ _ => (.ok, 0), fun _ _ _ _ => .ok⟩

theorem sub64_eq_sub (a b : Nat) (hba : b ≤ a) (ha : a < 2 ^ 64) :
    sub64 a b = a - b := by
  have h : (2 : Nat) ^ 64 = 18446744073709551616 := by norm_num
  unfold sub64
  rw [h] at ha ⊢
  omega

theorem readU8_writeU8_same (m : Mem) (p v : Nat) :
    readU8 (writeU8 m p v) p = v % 256 := by
  simp [readU8, writeU8]

theorem readU8_writeU8_ne (m : Mem) (p q v : Nat) (h : p ≠ q) :
    readU8 (writeU8 m q v) p = readU8 m p := by
  simp [readU8, writeU8, h]

theorem readU16_writeU16_same (m : Mem) (p v : Nat) :
    readU16 (writeU16 m p v) p = v % 65536 := by
  unfold readU16 writeU16
  rw [readU8_writeU8_ne _ _ _ _ (by omega), readU8_writeU8_same,
    readU8_writeU8_same]
  omega

theorem readU16_writeU16_disj (m : Mem) (p q v : Nat) (h1 : p ≠ q)
    (h2 : p ≠ q + 1) (h3 : p + 1 ≠ q) (h4 : p + 1 ≠ q + 1) :
    readU16 (writeU16 m q v) p = readU16 m p := by
  unfold readU16 writeU16
  rw [readU8_writeU8_ne _ _ _ _ h2, readU8_writeU8_ne _ _ _ _ h1,
    readU8_writeU8_ne _ _ _ _ h4, readU8_writeU8_ne _ _ _ _ h3]

theorem readU32_writeU32_same (m : Mem) (p v : Nat) :
    readU32 (writeU32 m p v) p = v % 4294967296 := by
  unfold readU32 writeU32
  rw [readU16_writeU16_disj _ _ _ _ (by omega) (by omega) (by omega) (by omega),
    readU16_writeU16_same, readU16_writeU16_same]
  omega

/-- C1: every port read or write on an attached IO region issues the
platform port primitive at offset exactly A minus base, where A is the
absolute address of the rw input (the datum the source reads under its
offset union name) and base is the base recorded by the IO attach. -/
theorem io_rw_offset_translation (env : IoRwEnv) (ctx : IoRegionCtx)
    (d : RwInput) (hb : ctx.base ≤ d.address) (ha : d.address < 2 ^ 64) :
    (io_region_do_rw env .read ctx d).call =
      .portReadCall ctx.handle (d.address - ctx.base) d.byte_width ∧
    (io_region_do_rw env .write ctx d).call =
      .portWriteCall ctx.handle (d.address - ctx.base) d.byte_width d.value := by
  have h := sub64_eq_sub d.address ctx.base hb ha
  constructor
  · simp [io_region_do_rw, RwInput.offset, h]
  · simp [io_region_do_rw, RwInput.offset, h]

theorem io_rw_offset_translation_witness :
    (⟨1016, 7⟩ : IoRegionCtx).base ≤ (⟨1018, 1, 90⟩ : RwInput).address ∧
    (io_region_do_rw sampleIoRwEnv .write ⟨1016, 7⟩ ⟨1018, 1, 90⟩).call =
      .portWriteCall 7 2 1 90 := by
  refine ⟨by decide, ?_⟩
  have h := io_rw_offset_translation sampleIoRwEnv ⟨1016, 7⟩ ⟨1018, 1, 90⟩
    (by decide) (by decide)
  simpa using h.2

/-- C2: every MMIO read or write on an attached memory region performs the
access at pointer virt plus the difference of the absolute address of the
rw input and the phys recorded at attach, delegating to the width-checked
memory primitives at exactly that pointer. -/
theorem mmio_rw_pointer_translation (ctx : MemoryRegionCtx) (d : RwInput)
    (m : Mem) (hb : ctx.phys ≤ d.address) (ha : d.address < 2 ^ 64) :
    memory_region_do_rw .read ctx d m =
      ⟨(memory_read m (ctx.virt + (d.address - ctx.phys)) d.byte_width d.value).1,
       { d with value :=
          (memory_read m (ctx.virt + (d.address - ctx.phys)) d.byte_width d.value).2 },
       m, ctx.virt + (d.address - ctx.phys)⟩ ∧
    memory_region_do_rw .write ctx d m =
      ⟨(memory_write m (ctx.virt + (d.address - ctx.phys)) d.byte_width d.value).1,
       d,
       (memory_write m (ctx.virt + (d.address - ctx.phys)) d.byte_width d.value).2,
       ctx.virt + (d.address - ctx.phys)⟩ := by
  have h := sub64_eq_sub d.address ctx.phys hb ha
  constructor
  · simp [memory_region_do_rw, h]
  · simp [memory_region_do_rw, h]

theorem mmio_rw_pointer_translation_witness :
    (⟨65536, 4096, 256⟩ : MemoryRegionCtx).phys ≤
      (⟨65536, 4, 0⟩ : RwInput).address ∧
    (memory_region_do_rw .read ⟨65536, 4096, 256⟩ ⟨65536, 4, 0⟩ zeroMem).ptr =
      4096 := by
  refine ⟨by decide, ?_⟩
  have h := (mmio_rw_pointer_translation ⟨65536, 4096, 256⟩ ⟨65536, 4, 0⟩
    zeroMem (by decide) (by decide)).1
  simpa using congrArg MemRwResult.ptr h

/-- C4: the MMIO access primitives accept exactly the byte widths 1, 2, 4
and 8; any other width makes both the read and the write return
invalid-argument, with memory untouched and the read out slot unchanged
(for every memory state, so no load is performed either). -/
theorem memory_access_width_validation (m : Mem) (p out v w : Nat) :
    (w ≠ 1 → w ≠ 2 → w ≠ 4 → w ≠ 8 →
      memory_read m p w out = (.invalidArgument, out) ∧
      memory_write m p w v = (.invalidArgument, m)) ∧
    (w = 1 ∨ w = 2 ∨ w = 4 ∨ w = 8 →
      (memory_read m p w out).1 = .ok ∧ (memory_write m p w v).1 = .ok) := by
  constructor
  · intro h1 h2 h4 h8
    constructor
    · unfold memory_read
      split <;> simp_all
    · unfold memory_write
      split <;> simp_all
  · rintro (rfl | rfl | rfl | rfl) <;> exact ⟨rfl, rfl⟩

theorem memory_access_width_validation_witness :
    ((3 : Nat) ≠ 1 ∧ (3 : Nat) ≠ 2 ∧ (3 : Nat) ≠ 4 ∧ (3 : Nat) ≠ 8) ∧
    memory_read zeroMem 5 3 7 = (.invalidArgument, 7) ∧
    (memory_write zeroMem 5 3 9).1 = .invalidArgument ∧
    (memory_read zeroMem 5 4 7).1 = .ok := by
  refine ⟨by decide, ?_, ?_, ?_⟩
  · exact ((memory_access_width_validation zeroMem 5 7 9 3).1
      (by decide) (by decide) (by decide) (by decide)).1
  · rw [((memory_access_width_validation zeroMem 5 7 9 3).1
      (by decide) (by decide) (by decide) (by decide)).2]
  · exact ((memory_access_width_validation zeroMem 5 7 9 4).2
      (by simp)).1

/-- C9: an MMIO write of width 1, 2 or 4 stores the value reduced modulo
2 to the 8w, an MMIO read of such a width produces a value strictly below
2 to the 8w for every memory state, and a read after a write at the same
pointer and width returns the written value reduced modulo 2 to the 8w. -/
theorem mmio_truncation_zero_extension (m : Mem) (p v out w : Nat)
    (hw : w = 1 ∨ w = 2 ∨ w = 4) :
    (memory_write m p w v).1 = .ok ∧
    memory_read (memory_write m p w v).2 p w out = (.ok, v % 2 ^ (8 * w)) ∧
    ∀ m2 : Mem, (memory_read m2 p w out).2 < 2 ^ (8 * w) := by
  rcases hw with rfl | rfl | rfl
  · refine ⟨rfl, ?_, ?_⟩
    · show ((UacpiStatus.ok, readU8 (writeU8 m p v) p) : UacpiStatus × Nat) = _
      rw [readU8_writeU8_same]
      norm_num
    · intro m2
      show readU8 m2 p < _
      have h256 : (2 : Nat) ^ (8 * 1) = 256 := by norm_num
      rw [h256]
      unfold readU8
      omega
  · refine ⟨rfl, ?_, ?_⟩
    · show ((UacpiStatus.ok, readU16 (writeU16 m p v) p) : UacpiStatus × Nat) = _
      rw [readU16_writeU16_same]
      norm_num
    · intro m2
      show readU16 m2 p < _
      have h2p : (2 : Nat) ^ (8 * 2) = 65536 := by norm_num
      rw [h2p]
      unfold readU16 readU8
      omega
  · refine ⟨rfl, ?_, ?_⟩
    · show ((UacpiStatus.ok, readU32 (writeU32 m p v) p) : UacpiStatus × Nat) = _
      rw [readU32_writeU32_same]
      norm_num
    · intro m2
      show readU32 m2 p < _
      have h4p : (2 : Nat) ^ (8 * 4) = 4294967296 := by norm_num
      rw [h4p]
      unfold readU32 readU16 readU8
      omega

theorem mmio_truncation_zero_extension_witness :
    ((4 : Nat) = 1 ∨ (4 : Nat) = 2 ∨ (4 : Nat) = 4) ∧
    memory_read (memory_write zeroMem 4096 4 3735928559).2 4096 4 0 =
      (.ok, 3735928559 % 2 ^ (8 * 4)) := by
  refine ⟨by decide, ?_⟩
  exact (mmio_truncation_zero_extension zeroMem 4096 3735928559 0 4
    (by simp)).2.1

theorem pci_region_attach_device_out (isBridge : String → Bool)
    (node : NodeInfo) (below : List NodeInfo) (root : NodeInfo)
    (dev : NodeInfo) (hdev : findDevice (node :: (below ++ [root])) = some dev) :
    pci_region_attach isBridge true node below root =
      ⟨.ok,
       some ⟨(match (find_pci_root isBridge node below).seg with
              | some v => v % 65536
              | none => 0),
             (match (find_pci_root isBridge node below).bbn with
              | some v => v % 256
              | none => 0),
             (match dev.adr with
              | some v => v / 65536 % 256
              | none => 0),
             (match dev.adr with
              | some v => v % 256
              | none => 0)⟩,
       false⟩ := by
  simp [pci_region_attach, hdev]

theorem pci_attach_status_of_device (isBridge : String → Bool)
    (node : NodeInfo) (below : List NodeInfo) (root : NodeInfo)
    (dev : NodeInfo) (hdev : findDevice (node :: (below ++ [root])) = some dev) :
    (pci_region_attach isBridge true node below root).status = .ok := by
  rw [pci_region_attach_device_out isBridge node below root dev hdev]

theorem find_pci_root_eq_find (isBridge : String → Bool) (node : NodeInfo)
    (l : List NodeInfo) :
    find_pci_root isBridge node l =
      (l.find? (fun p => is_node_pci_root isBridge p)).getD node := by
  induction l with
  | nil => rfl
  | cons p rest ih =>
    by_cases h : is_node_pci_root isBridge p
    · simp [find_pci_root, h, List.find?_cons_of_pos]
    · simp [find_pci_root, h, List.find?_cons_of_neg, ih]

/-- C3: every PCI attach whose controlling device (the first node of the
walked chain carrying a Device object) evaluates _ADR ok to v stores
function equal to the low byte of v and device equal to byte 2 of v (bits
16 to 23); the stored device and function depend only on those two byte
fields, so any attach whose controlling device carries an _ADR value
agreeing with v on bits 0 to 7 and 16 to 23, in particular v with bits 8
to 15 and 24 and up changed, stores the same pair. -/
theorem pci_adr_bit_extraction (isBridge : String → Bool) (node : NodeInfo)
    (below : List NodeInfo) (root : NodeInfo) (dev : NodeInfo) (v : Nat)
    (hdev : findDevice (node :: (below ++ [root])) = some dev)
    (hadr : dev.adr = some v) :
    ∃ ctx, (pci_region_attach isBridge true node below root).out = some ctx ∧
      ctx.function = v % 256 ∧ ctx.device = v / 65536 % 256 ∧
      ∀ (node2 root2 dev2 : NodeInfo) (below2 : List NodeInfo) (w : Nat),
        findDevice (node2 :: (below2 ++ [root2])) = some dev2 →
        dev2.adr = some w →
        w % 256 = v % 256 → w / 65536 % 256 = v / 65536 % 256 →
        ∃ ctx2, (pci_region_attach isBridge true node2 below2
            root2).out = some ctx2 ∧
          ctx2.function = ctx.function ∧ ctx2.device = ctx.device := by
  rw [pci_region_attach_device_out isBridge node below root dev hdev]
  refine ⟨_, rfl, by simp [hadr], by simp [hadr], ?_⟩
  intro node2 root2 dev2 below2 w hdev2 hadr2 hw1 hw2
  rw [pci_region_attach_device_out isBridge node2 below2 root2 dev2 hdev2]
  exact ⟨_, rfl, by simp [hadr, hadr2, hw1], by simp [hadr, hadr2, hw2]⟩

theorem pci_adr_bit_extraction_witness :
    findDevice (sampleRoot :: ([sampleDevNode, sampleBridgeNode] ++
      [sampleRoot])) = some sampleDevNode ∧
    sampleDevNode.adr = some 2031619 ∧
    ∃ ctx, (pci_region_attach sampleBridgeIds true sampleRoot
        [sampleDevNode, sampleBridgeNode] sampleRoot).out = some ctx ∧
      ctx.function = 3 ∧ ctx.device = 31 := by
  refine ⟨by decide, rfl, ?_⟩
  obtain ⟨ctx, hout, hfn, hdv, _⟩ := pci_adr_bit_extraction sampleBridgeIds
    sampleRoot [sampleDevNode, sampleBridgeNode] sampleRoot sampleDevNode
    2031619 (by decide) rfl
  refine ⟨ctx, hout, ?_, ?_⟩
  · rw [hfn]
  · rw [hdv]

/-- C5: each failing attach is all or nothing. When the MMIO map returns
null the context is freed, mapping-failed is returned and the out slot is
not written; when the PCI walk finds no Device ancestor the context is
freed, not-found is returned and the out slot is not written; when the port
io-map fails the context is freed, the platform status is returned
unchanged and the out slot is not written. -/
theorem attach_failure_all_or_nothing :
    (∀ (env : MemEnv) (reg : OpRegion), env.allocOk = true →
      env.mapResult reg.offset reg.length = none →
      memory_region_attach env reg = ⟨.mappingFailed, none, true⟩) ∧
    (∀ (isBridge : String → Bool) (node : NodeInfo) (below : List NodeInfo)
        (root : NodeInfo), findDevice (node :: (below ++ [root])) = none →
      pci_region_attach isBridge true node below root =
        ⟨.notFound, none, true⟩) ∧
    (∀ (env : IoEnv) (reg : OpRegion), env.allocOk = true →
      (env.portMap reg.offset reg.length).1 ≠ .ok →
      io_region_attach env reg =
        ⟨(env.portMap reg.offset reg.length).1, none, true⟩) := by
  refine ⟨?_, ?_, ?_⟩
  · intro env reg h1 h2
    simp [memory_region_attach, h1, h2]
  · intro isBridge node below root h
    simp [pci_region_attach, h]
  · intro env reg h1 h2
    simp [io_region_attach, h1, h2]

theorem attach_failure_all_or_nothing_witness :
    failMapMemEnv.allocOk = true ∧
    failMapMemEnv.mapResult sampleReg.offset sampleReg.length = none ∧
    memory_region_attach failMapMemEnv sampleReg =
      ⟨.mappingFailed, none, true⟩ ∧
    findDevice (sampleRoot :: ([] ++ [sampleRoot])) = none ∧
    pci_region_attach sampleBridgeIds true sampleRoot [] sampleRoot =
      ⟨.notFound, none, true⟩ ∧
    (failIoEnv.portMap sampleReg.offset sampleReg.length).1 ≠ .ok ∧
    io_region_attach failIoEnv sampleReg = ⟨.otherError 33, none, true⟩ := by
  refine ⟨rfl, rfl, ?_, by decide, ?_, by decide, ?_⟩
  · exact attach_failure_all_or_nothing.1 failMapMemEnv sampleReg rfl rfl
  · exact attach_failure_all_or_nothing.2.1 sampleBridgeIds sampleRoot []
      sampleRoot (by decide)
  · exact attach_failure_all_or_nothing.2.2 failIoEnv sampleReg rfl (by decide)

/-- C6: a node is recognized as a PCI root exactly when its _HID evaluates
ok to a recognized root-bridge id or some entry of its ok _CID list is
recognized; the root walk returns the first proper ancestor below the
namespace root so recognized, and falls back to the region node itself when
none is, in which case an attach that finds a controlling device still
returns ok rather than failing. -/
theorem pci_root_walk_first_match_or_fallback (isBridge : String → Bool)
    (node : NodeInfo) (below : List NodeInfo) (root : NodeInfo) :
    (∀ n : NodeInfo, is_node_pci_root isBridge n = true ↔
      ((∃ id, n.hid = some id ∧ isBridge id = true) ∨
       (∃ ids, n.cid = some ids ∧ ids.any isBridge = true))) ∧
    find_pci_root isBridge node below =
      (below.find? (fun p => is_node_pci_root isBridge p)).getD node ∧
    (below.find? (fun p => is_node_pci_root isBridge p) = none →
      find_pci_root isBridge node below = node ∧
      (∀ dev : NodeInfo, findDevice (node :: (below ++ [root])) = some dev →
        (pci_region_attach isBridge true node below root).status = .ok)) := by
  refine ⟨?_, find_pci_root_eq_find isBridge node below, ?_⟩
  · intro n
    cases hh : n.hid <;> cases hc : n.cid <;>
      simp [is_node_pci_root, hh, hc]
  · intro hnone
    refine ⟨?_, ?_⟩
    · rw [find_pci_root_eq_find isBridge node below, hnone]
      rfl
    · intro dev hdev
      exact pci_attach_status_of_device isBridge node below root dev hdev

theorem pci_root_walk_first_match_or_fallback_witness :
    find_pci_root sampleBridgeIds sampleDevNode [sampleBridgeNode] =
      sampleBridgeNode ∧
    ([] : List NodeInfo).find? (fun p => is_node_pci_root sampleBridgeIds p) =
      none ∧
    find_pci_root sampleBridgeIds sampleDevNode [] = sampleDevNode ∧
    (pci_region_attach sampleBridgeIds true sampleDevNode []
      sampleRoot).status = .ok := by
  refine ⟨?_, rfl, ?_, ?_⟩
  · rw [(pci_root_walk_first_match_or_fallback sampleBridgeIds sampleDevNode
      [sampleBridgeNode] sampleRoot).2.1]
    decide
  · exact ((pci_root_walk_first_match_or_fallback sampleBridgeIds
      sampleDevNode [] sampleRoot).2.2 rfl).1
  · exact ((pci_root_walk_first_match_or_fallback sampleBridgeIds
      sampleDevNode [] sampleRoot).2.2 rfl).2 sampleDevNode (by decide)

/-- C7: once the context is allocated and a controlling device is found, a
failing _ADR, _SEG or _BBN evaluation is not an attach failure: the attach
returns ok with the context stored in the out slot, and the field fed by
the failing evaluation stays zero. -/
theorem pci_eval_failures_nonfatal (isBridge : String → Bool)
    (node : NodeInfo) (below : List NodeInfo) (root : NodeInfo)
    (dev : NodeInfo) (hdev : findDevice (node :: (below ++ [root])) = some dev) :
    (pci_region_attach isBridge true node below root).status = .ok ∧
    ∃ ctx, (pci_region_attach isBridge true node below root).out = some ctx ∧
      (dev.adr = none → ctx.function = 0 ∧ ctx.device = 0) ∧
      ((find_pci_root isBridge node below).seg = none → ctx.segment = 0) ∧
      ((find_pci_root isBridge node below).bbn = none → ctx.bus = 0) := by
  rw [pci_region_attach_device_out isBridge node below root dev hdev]
  refine ⟨rfl, _, rfl, ?_, ?_, ?_⟩ <;> intro h <;> simp [h]

theorem pci_eval_failures_nonfatal_witness :
    findDevice (sampleBareDevNode :: ([] ++ [sampleRoot])) =
      some sampleBareDevNode ∧
    (pci_region_attach sampleBridgeIds true sampleBareDevNode []
      sampleRoot).status = .ok ∧
    ∃ ctx, (pci_region_attach sampleBridgeIds true sampleBareDevNode []
        sampleRoot).out = some ctx ∧
      ctx.function = 0 ∧ ctx.device = 0 ∧ ctx.segment = 0 ∧ ctx.bus = 0 := by
  have h := pci_eval_failures_nonfatal sampleBridgeIds sampleBareDevNode []
    sampleRoot sampleBareDevNode (by decide)
  obtain ⟨ctx, hout, hfd, hs, hb⟩ := h.2
  exact ⟨by decide, h.1, ctx, hout, (hfd rfl).1, (hfd rfl).2,
    hs (by decide), hb (by decide)⟩

/-- C10: a PCI attach can only return ok, out-of-memory or not-found; once
the allocation succeeds and a controlling device exists, it returns ok
whatever the outcomes of the _HID, _CID, _ADR, _SEG and _BBN evaluations
carried by the nodes. -/
theorem pci_attach_failure_modes (isBridge : String → Bool) (allocOk : Bool)
    (node : NodeInfo) (below : List NodeInfo) (root : NodeInfo) :
    ((pci_region_attach isBridge allocOk node below root).status = .ok ∨
     (pci_region_attach isBridge allocOk node below root).status =
       .outOfMemory ∨
     (pci_region_attach isBridge allocOk node below root).status =
       .notFound) ∧
    (allocOk = true → findDevice (node :: (below ++ [root])) ≠ none →
      (pci_region_attach isBridge allocOk node below root).status = .ok) := by
  cases allocOk
  · simp [pci_region_attach]
  · cases h : findDevice (node :: (below ++ [root])) with
    | none =>
      refine ⟨?_, ?_⟩
      · simp [pci_region_attach, h]
      · intro _ hne
        exact absurd rfl hne
    | some dev =>
      have hok := pci_attach_status_of_device isBridge node below root dev h
      exact ⟨Or.inl hok, fun _ _ => hok⟩

theorem pci_attach_failure_modes_witness :
    findDevice (sampleDevNode :: ([] ++ [sampleRoot])) ≠ none ∧
    (pci_region_attach sampleBridgeIds true sampleDevNode []
      sampleRoot).status = .ok := by
  refine ⟨by decide, ?_⟩
  exact (pci_attach_failure_modes sampleBridgeIds true sampleDevNode []
    sampleRoot).2 rfl (by decide)

/-- C8: for each of the three backings, an op code other than Attach,
Detach, Read or Write makes the handler return invalid-argument, and a
Detach on a context produced by a successful Attach of the same backing
returns ok after releasing the owned resources: unmap of the virtual range
then free for MMIO, port unmap then free for port I/O, free for PCI. -/
theorem handler_dispatch_contract :
    (∀ (n : Nat) (d : MemOpData),
      handle_memory_region (.otherOp n) d = .rejected .invalidArgument) ∧
    (∀ (n : Nat) (d : IoOpData),
      handle_io_region (.otherOp n) d = .rejected .invalidArgument) ∧
    (∀ (n : Nat) (d : PciOpData),
      handle_pci_region (.otherOp n) d = .rejected .invalidArgument) ∧
    (∀ (env : MemEnv) (reg : OpRegion) (ctx : MemoryRegionCtx),
      (memory_region_attach env reg).out = some ctx →
      handle_memory_region .detach (.detachData ctx) =
        .detached .ok [.unmapVirt ctx.virt ctx.size, .freeCtx]) ∧
    (∀ (env : IoEnv) (reg : OpRegion) (ctx : IoRegionCtx),
      (io_region_attach env reg).out = some ctx →
      handle_io_region .detach (.detachData ctx) =
        .detached .ok [.unmapPort ctx.handle, .freeCtx]) ∧
    (∀ (isBridge : String → Bool) (allocOk : Bool) (node : NodeInfo)
        (below : List NodeInfo) (root : NodeInfo) (ctx : PciAddress),
      (pci_region_attach isBridge allocOk node below root).out = some ctx →
      handle_pci_region .detach (.detachData ctx) =
        .detached .ok [.freeCtx]) :=
  ⟨fun _ _ => rfl, fun _ _ => rfl, fun _ _ => rfl,
   fun _ _ _ _ => rfl, fun _ _ _ _ => rfl, fun _ _ _ _ _ _ _ => rfl⟩

theorem handler_dispatch_contract_witness :
    handle_memory_region (.otherOp 9) (.detachData ⟨0, 0, 0⟩) =
      .rejected .invalidArgument ∧
    handle_io_region (.otherOp 9) (.detachData ⟨0, 0⟩) =
      .rejected .invalidArgument ∧
    handle_pci_region (.otherOp 9) (.detachData ⟨0, 0, 0, 0⟩) =
      .rejected .invalidArgument ∧
    (memory_region_attach sampleMemEnv sampleReg).out =
      some ⟨65536, 4096, 256⟩ ∧
    handle_memory_region .detach (.detachData ⟨65536, 4096, 256⟩) =
      .detached .ok [.unmapVirt 4096 256, .freeCtx] ∧
    (io_region_attach sampleIoEnv sampleReg).out = some ⟨65536, 7⟩ ∧
    handle_io_region .detach (.detachData ⟨65536, 7⟩) =
      .detached .ok [.unmapPort 7, .freeCtx] ∧
    (pci_region_attach sampleBridgeIds true sampleDevNode []
      sampleRoot).out = some ⟨0, 0, 31, 3⟩ ∧
    handle_pci_region .detach (.detachData ⟨0, 0, 31, 3⟩) =
      .detached .ok [.freeCtx] := by
  refine ⟨handler_dispatch_contract.1 9 _, handler_dispatch_contract.2.1 9 _,
    handler_dispatch_contract.2.2.1 9 _, by decide, ?_, by decide, ?_,
    by decide, ?_⟩
  · exact handler_dispatch_contract.2.2.2.1 sampleMemEnv sampleReg
      ⟨65536, 4096, 256⟩ (by decide)
  · exact handler_dispatch_contract.2.2.2.2.1 sampleIoEnv sampleReg
      ⟨65536, 7⟩ (by decide)
  · exact handler_dispatch_contract.2.2.2.2.2 sampleBridgeIds true
      sampleDevNode [] sampleRoot ⟨0, 0, 31, 3⟩ (by decide)
